import Mathlib

/-!
Verification development for the A4 VirtuGhan analysis plugin utilities
(`src/a_4_utils.py` and `src/Other_Trials/A4_utils.py`).

The modules are a thin integration layer: a slippy-map coordinate
conversion delegated to the external `mercantile` library, a pass-through
call into the external VirtuGhan tile engine, elementwise band-index
arithmetic over numpy arrays, filename construction for saved tiles, and a
Python dictionary used as an in-memory tile store.

Embedding choices:
- numpy float arrays become `List ℚ`; elementwise binary operations become
  `List.zipWith` (numpy broadcasting over two same-shape arrays).
- The Python dict `self.tiles` becomes an association list whose insert
  overwrites the value of an existing key in place (Python dict assignment
  semantics) and otherwise appends at the end.
- External functions (`mercantile.tile`, `TileProcessor.cached_generate_tile`,
  `PIL.Image.open`, `Image.save`, Python `eval`) are parameters of the
  embedded functions: the repository only composes them.
- Fallible operations are additionally modelled in the `Except` monad to
  state error-propagation properties; the Python code contains no
  try/except, so every sub-operation failure propagates through `bind`.
-/

namespace A4Utils

/-- One step of Python dict assignment `d[k] = v` on an association list:
replace the value at the first occurrence of `k`, else append `(k, v)`. -/
def dictInsert {κ ν : Type} [DecidableEq κ] (k : κ) (v : ν) :
    List (κ × ν) → List (κ × ν)
  | [] => [(k, v)]
  | (k', v') :: rest =>
      if k' = k then (k, v) :: rest else (k', v') :: dictInsert k v rest

/-- Python `d.get(k, None)`: the value at the first occurrence of `k`,
or `none` when `k` is absent. -/
def dictGet {κ ν : Type} [DecidableEq κ] (k : κ) :
    List (κ × ν) → Option ν
  | [] => none
  | (k', v') :: rest => if k' = k then some v' else dictGet k rest

/-- The keys of an association list, in order (Python `list(d.keys())`). -/
def dictKeys {κ ν : Type} (l : List (κ × ν)) : List κ :=
  l.map Prod.fst

theorem dictGet_dictInsert_self {κ ν : Type} [DecidableEq κ]
    (k : κ) (v : ν) (l : List (κ × ν)) :
    dictGet k (dictInsert k v l) = some v := by
  induction l with
  | nil => simp [dictInsert, dictGet]
  | cons hd tl ih =>
      obtain ⟨k', v'⟩ := hd
      by_cases h : k' = k
      · simp [dictInsert, dictGet, h]
      · simp [dictInsert, dictGet, h, ih]

theorem dictGet_dictInsert_ne {κ ν : Type} [DecidableEq κ]
    (k k' : κ) (v : ν) (l : List (κ × ν)) (h : k' ≠ k) :
    dictGet k' (dictInsert k v l) = dictGet k' l := by
  induction l with
  | nil => simp [dictInsert, dictGet, Ne.symm h]
  | cons hd tl ih =>
      obtain ⟨k₀, v₀⟩ := hd
      by_cases h₀ : k₀ = k
      · subst h₀
        simp [dictInsert, dictGet, Ne.symm h]
      · simp only [dictInsert, if_neg h₀]
        by_cases h₁ : k₀ = k'
        · simp [dictGet, h₁]
        · simp [dictGet, h₁, ih]

theorem mem_dictKeys_dictInsert {κ ν : Type} [DecidableEq κ]
    (k k' : κ) (v : ν) (l : List (κ × ν)) (h : k' ∈ dictKeys l) :
    k' ∈ dictKeys (dictInsert k v l) := by
  induction l with
  | nil => simp [dictKeys] at h
  | cons hd tl ih =>
      obtain ⟨k₀, v₀⟩ := hd
      by_cases h₀ : k₀ = k
      · subst h₀
        simpa [dictInsert, dictKeys] using h
      · simp only [dictKeys, List.map_cons] at h
        rcases List.mem_cons.mp h with h₁ | h₁
        · simp [dictInsert, h₀, dictKeys, h₁]
        · have := ih (by simpa [dictKeys] using h₁)
          simp [dictInsert, h₀, dictKeys] at this ⊢
          exact Or.inr this

theorem dictGet_eq_none_of_not_mem {κ ν : Type} [DecidableEq κ]
    (k : κ) (l : List (κ × ν)) (h : k ∉ dictKeys l) :
    dictGet k l = none := by
  induction l with
  | nil => simp [dictGet]
  | cons hd tl ih =>
      obtain ⟨k₀, v₀⟩ := hd
      simp only [dictKeys, List.map_cons, List.mem_cons] at h
      push_neg at h
      have h₀ : k₀ ≠ k := fun hk => h.1 hk.symm
      simp [dictGet, h₀, ih (by simpa [dictKeys] using h.2)]

theorem length_dictInsert_dictInsert {κ ν : Type} [DecidableEq κ]
    (k : κ) (v₁ v₂ : ν) (l : List (κ × ν)) :
    (dictInsert k v₂ (dictInsert k v₁ l)).length = (dictInsert k v₁ l).length := by
  induction l with
  | nil => simp [dictInsert]
  | cons hd tl ih =>
      obtain ⟨k₀, v₀⟩ := hd
      by_cases h₀ : k₀ = k
      · simp [dictInsert, h₀]
      · simp [dictInsert, h₀, ih]

/-- Tile-store key: `(x, y, z, name)`, exactly the tuple built by
`add_tile`/`get_tile` via `key = (*coords, name)`. -/
abbrev TileKey : Type := Int × Int × Int × String

/-- The `VirtualCube` class of `a_4_utils.py`: its only field is the dict
`self.tiles` keyed by `(x, y, z, name)` with `(image, metadata)` values. -/
structure VirtualCube (Img Meta : Type) where
  tiles : List (TileKey × (Img × Meta))

/-- `VirtualCube.__init__`: `self.tiles = {}`. -/
def VirtualCube.empty (Img Meta : Type) : VirtualCube Img Meta := ⟨[]⟩

/-- `VirtualCube.add_tile(name, image, metadata, coords)`:
`key = (*coords, name); self.tiles[key] = (image, metadata)`. -/
def VirtualCube.add_tile {Img Meta : Type} (c : VirtualCube Img Meta)
    (name : String) (image : Img) (metadata : Meta)
    (coords : Int × Int × Int) : VirtualCube Img Meta :=
  ⟨A4Utils.dictInsert (coords.1, coords.2.1, coords.2.2, name) (image, metadata) c.tiles⟩

/-- `VirtualCube.list_tiles()`: `list(self.tiles.keys())`. -/
def VirtualCube.list_tiles {Img Meta : Type} (c : VirtualCube Img Meta) :
    List TileKey :=
  A4Utils.dictKeys c.tiles

/-- `VirtualCube.get_tile(name, coords)`:
`key = (*coords, name); return self.tiles.get(key, None)`. -/
def VirtualCube.get_tile {Img Meta : Type} (c : VirtualCube Img Meta)
    (name : String) (coords : Int × Int × Int) : Option (Img × Meta) :=
  A4Utils.dictGet (coords.1, coords.2.1, coords.2.2, name) c.tiles

/-- Filename built by `VirtualCube.save_all` for the entry under key
`(x, y, z, name)`: the f-string `"{output_folder}/{name}_{z}_{x}_{y}.png"`. -/
def save_all_filename (name : String) (x y z : Int) (output_folder : String) : String :=
  output_folder ++ "/" ++ name ++ "_" ++ toString z ++ "_" ++ toString x ++
    "_" ++ toString y ++ ".png"

/-- `VirtualCube.save_all(output_folder)`: one `img.save(filename)` call per
stored entry, in iteration order. The result is the list of performed writes,
each a `(filename, image)` pair; the metadata component is discarded by the
loop pattern `(img, _)`. -/
def VirtualCube.save_all {Img Meta : Type} (c : VirtualCube Img Meta)
    (output_folder : String) : List (String × Img) :=
  c.tiles.map fun e =>
    match e with
    | ((x, y, z, name), (img, _)) => (save_all_filename name x y z output_folder, img)

/-- Filename built by `save_tile_image` in `a_4_utils.py`: the f-string
`"{output_folder}/tile_{z}_{x}_{y}.png"` (order z, x, y). -/
def tile_filename (x y z : Int) (output_folder : String) : String :=
  output_folder ++ "/tile_" ++ toString z ++ "_" ++ toString x ++
    "_" ++ toString y ++ ".png"

/-- `save_tile_image(image, x, y, z, output_folder)` of `a_4_utils.py`:
a single `image.save(filename)` call, modelled as the performed write,
a `(filename, image)` pair. -/
def save_tile_image {Img : Type} (image : Img) (x y z : Int)
    (output_folder : String) : String × Img :=
  (tile_filename x y z output_folder, image)

/-- The constant `1e-6` added to the evaluated denominator. -/
def epsilon : ℚ := 1e-6

/-- The value `compute_index` actually divides by, per element:
`den = eval(denominator...) + 1e-6`. The evaluated denominator expression is
the parameter `denominator`, a function of `b1` (red) and `b2` (nir). -/
def index_divisor (denominator : ℚ → ℚ → ℚ) (b1 b2 : ℚ) : ℚ :=
  denominator b1 b2 + epsilon

/-- `compute_index(nir_array, red_array, numerator, denominator)` of
`a_4_utils.py`: `b1 = red`, `b2 = nir`, result `num / den` elementwise with
`den = eval(denominator) + 1e-6`. The Python `eval` of the expression strings
over `band1`/`band2` is modelled by the function parameters; the defaults
`"band2-band1"` and `"band2+band1"` are `default_numerator` and
`default_denominator` below. -/
def compute_index (nir_array red_array : List ℚ)
    (numerator denominator : ℚ → ℚ → ℚ) : List ℚ :=
  List.zipWith (fun b2 b1 => numerator b1 b2 / index_divisor denominator b1 b2)
    nir_array red_array

/-- The default numerator expression `"band2-band1"` with `band1 = b1` (red)
and `band2 = b2` (nir). -/
def default_numerator (b1 b2 : ℚ) : ℚ := b2 - b1

/-- The default denominator expression `"band2+band1"`. -/
def default_denominator (b1 b2 : ℚ) : ℚ := b2 + b1

namespace OtherTrials

/-- The value `compute_ndvi` of `Other_Trials/A4_utils.py` actually divides
by, per element: `nir + red + 1e-6`. -/
def ndvi_divisor (nir red : ℚ) : ℚ := nir + red + epsilon

/-- `compute_ndvi(nir_array, red_array)` of `Other_Trials/A4_utils.py`:
`ndvi = (nir - red) / (nir + red + 1e-6)` elementwise. -/
def compute_ndvi (nir_array red_array : List ℚ) : List ℚ :=
  List.zipWith (fun nir red => (nir - red) / ndvi_divisor nir red)
    nir_array red_array

/-- Filename built by `save_tile_image` in `Other_Trials/A4_utils.py`: the
f-string `"{output_folder}/tile_{x}_{y}_{z}.png"` (order x, y, z). -/
def tile_filename (x y z : Int) (output_folder : String) : String :=
  output_folder ++ "/tile_" ++ toString x ++ "_" ++ toString y ++
    "_" ++ toString z ++ ".png"

/-- `save_tile_image(image, x, y, z, output_folder)` of
`Other_Trials/A4_utils.py`, modelled as the performed `(filename, image)`
write. -/
def save_tile_image {Img : Type} (image : Img) (x y z : Int)
    (output_folder : String) : String × Img :=
  (tile_filename x y z output_folder, image)

end OtherTrials

/-- `fetch_index_tile` of `a_4_utils.py`. The externals are parameters:
`mercantile_tile` is `mercantile.tile(lon, lat, zoom)` (note the argument
order: longitude first), `cached_generate_tile` is the blocking run of
`TileProcessor.cached_generate_tile` returning `(image_bytes, feature)`, and
`image_open` is `Image.open(BytesIO(image_bytes))`. The function unpacks
`x, y, z = mercantile.tile(...)`, calls the engine at that triple with the
remaining arguments, decodes the bytes, and returns `img, feature, (x, y, z)`. -/
def fetch_index_tile {Bytes Feature Img : Type}
    (mercantile_tile : ℚ → ℚ → ℕ → Int × Int × ℕ)
    (cached_generate_tile :
      Int → Int → ℕ → String → String → Int → String → String → String → String →
        Bytes × Feature)
    (image_open : Bytes → Img)
    (lat lon : ℚ) (zoom : ℕ)
    (start_date end_date : String) (cloud_cover : Int)
    (band1 band2 formula colormap_str : String) :
    Img × Feature × (Int × Int × ℕ) :=
  let xyz := mercantile_tile lon lat zoom
  let result := cached_generate_tile xyz.1 xyz.2.1 xyz.2.2
    start_date end_date cloud_cover band1 band2 formula colormap_str
  (image_open result.1, result.2, xyz)

namespace OtherTrials

/-- `fetch_ndvi_tile` of `Other_Trials/A4_utils.py`: same structure as
`fetch_index_tile` but with the band/formula/colormap arguments hardcoded to
`"red"`, `"nir"`, `"(band2-band1)/(band2+band1)"`, `"RdYlGn"`, and a return
value of only `image, feature` — the tile triple is computed and passed to
the engine but not returned. -/
def fetch_ndvi_tile {Bytes Feature Img : Type}
    (mercantile_tile : ℚ → ℚ → ℕ → Int × Int × ℕ)
    (cached_generate_tile :
      Int → Int → ℕ → String → String → Int → String → String → String → String →
        Bytes × Feature)
    (image_open : Bytes → Img)
    (lat lon : ℚ) (zoom : ℕ)
    (start_date end_date : String) (cloud_cover : Int) :
    Img × Feature :=
  let xyz := mercantile_tile lon lat zoom
  let result := cached_generate_tile xyz.1 xyz.2.1 xyz.2.2
    start_date end_date cloud_cover "red" "nir" "(band2-band1)/(band2+band1)" "RdYlGn"
  (image_open result.1, result.2)

end OtherTrials

/-!
Except-monad models for error propagation (claim about the absence of any
try/except in the module): each fallible sub-operation is a parameter
returning `Except E _`, and the embedded operation composes them with `bind`,
exactly mirroring the straight-line Python code in which any raised exception
aborts the function and reaches the caller unchanged.
-/

/-- `compute_index` with its fallible sub-operations explicit: `eval` of the
numerator string, `eval` of the denominator string, and the array division
(numpy arithmetic). `add_epsilon` is the total `+ 1e-6`. An exception in any
step propagates: there is no try/except. -/
def compute_index_run {E A : Type} (eval_expr : String → Except E A)
    (add_epsilon : A → A) (divide : A → A → Except E A)
    (numerator denominator : String) : Except E A := do
  let num ← eval_expr numerator
  let den ← eval_expr denominator
  divide num (add_epsilon den)

/-- `compute_ndvi` of `Other_Trials/A4_utils.py` with its fallible
sub-operations explicit: the numpy array subtraction `nir - red`, the array
addition `nir + red`, and the array division. `add_epsilon` is the total
`+ 1e-6`. An exception in any step propagates: there is no try/except. -/
def compute_ndvi_run {E A : Type} (subtract : A → A → Except E A)
    (add : A → A → Except E A) (add_epsilon : A → A)
    (divide : A → A → Except E A) (nir red : A) : Except E A := do
  let num ← subtract nir red
  let den ← add nir red
  divide num (add_epsilon den)

/-- `save_tile_image` with the fallible `image.save(filename)` explicit as
the `write` parameter. -/
def save_tile_image_run {E Img : Type} (write : String → Img → Except E Unit)
    (image : Img) (x y z : Int) (output_folder : String) : Except E Unit :=
  write (tile_filename x y z output_folder) image

/-- The write loop of `save_all`: perform each `(filename, image)` write in
order, stopping at the first failure (an uncaught exception aborts the loop). -/
def write_each {E Img : Type} (write : String → Img → Except E Unit) :
    List (String × Img) → Except E Unit
  | [] => Except.ok ()
  | p :: rest => do
      write p.1 p.2
      write_each write rest

/-- `VirtualCube.save_all` with the fallible `img.save(filename)` explicit. -/
def save_all_run {E Img Meta : Type} (write : String → Img → Except E Unit)
    (c : VirtualCube Img Meta) (output_folder : String) : Except E Unit :=
  write_each write (c.save_all output_folder)

/-- `fetch_index_tile` with its fallible sub-operations explicit: the external
engine call and the image decode. -/
def fetch_index_tile_run {E Bytes Feature Img : Type}
    (mercantile_tile : ℚ → ℚ → ℕ → Int × Int × ℕ)
    (cached_generate_tile : Int → Int → ℕ → Except E (Bytes × Feature))
    (image_open : Bytes → Except E Img)
    (lat lon : ℚ) (zoom : ℕ) : Except E (Img × Feature × (Int × Int × ℕ)) := do
  let xyz := mercantile_tile lon lat zoom
  let result ← cached_generate_tile xyz.1 xyz.2.1 xyz.2.2
  let img ← image_open result.1
  pure (img, result.2, xyz)

/-- `fetch_ndvi_tile` of `Other_Trials/A4_utils.py` with its fallible
sub-operations explicit: the external engine call (at the projected tile
triple, with the NDVI arguments hardcoded inside `cached_generate_tile`)
and the image decode; only `(image, feature)` is returned. -/
def fetch_ndvi_tile_run {E Bytes Feature Img : Type}
    (mercantile_tile : ℚ → ℚ → ℕ → Int × Int × ℕ)
    (cached_generate_tile : Int → Int → ℕ → Except E (Bytes × Feature))
    (image_open : Bytes → Except E Img)
    (lat lon : ℚ) (zoom : ℕ) : Except E (Img × Feature) := do
  let xyz := mercantile_tile lon lat zoom
  let result ← cached_generate_tile xyz.1 xyz.2.1 xyz.2.2
  let img ← image_open result.1
  pure (img, result.2)

/-- If every write before position `i` succeeds and the write at position
`i` fails with `e`, the write loop returns exactly `e`. -/
theorem write_each_error {E Img : Type} (write : String → Img → Except E Unit)
    (e : E) (done rest : List (String × Img)) (p : String × Img)
    (hok : ∀ q ∈ done, write q.1 q.2 = Except.ok ())
    (hp : write p.1 p.2 = Except.error e) :
    write_each write (done ++ p :: rest) = Except.error e := by
  induction done with
  | nil =>
      simp only [List.nil_append, write_each]
      rw [hp]
      rfl
  | cons q qs ih =>
      have hq : write q.1 q.2 = Except.ok () := hok q (List.mem_cons_self q qs)
      simp only [List.cons_append, write_each]
      rw [hq]
      simpa using ih fun r hr => hok r (List.mem_cons_of_mem q hr)

/-- C1: for every VirtualCube instance, name, coords triple, image and
metadata, after `add_tile(name, image, metadata, coords)`, a call to
`get_tile(name, coords)` with the identical name and coords returns exactly
the stored pair `(image, metadata)`. -/
theorem claim_C1_store_retrieve_roundtrip {Img Meta : Type} :
    ∀ (c : VirtualCube Img Meta) (name : String) (image : Img) (metadata : Meta)
      (coords : Int × Int × Int),
    (c.add_tile name image metadata coords).get_tile name coords =
      some (image, metadata) := by
  intro c name image metadata coords
  simp only [VirtualCube.get_tile, VirtualCube.add_tile]
  exact dictGet_dictInsert_self _ _ _

/-- C9: if no entry is stored under key `(*coords, name)`, then
`get_tile(name, coords)` returns `None` (the dict `.get` default) rather
than raising an error. -/
theorem claim_C9_get_missing_returns_none {Img Meta : Type} :
    ∀ (c : VirtualCube Img Meta) (name : String) (coords : Int × Int × Int),
    (coords.1, coords.2.1, coords.2.2, name) ∉ c.list_tiles →
    c.get_tile name coords = none := by
  intro c name coords h
  exact dictGet_eq_none_of_not_mem _ _ h

/-- Witness for C9 at the empty cube. -/
theorem claim_C9_witness :
    ((1, 2, 3, "ndvi") : TileKey) ∉ (VirtualCube.empty ℕ ℕ).list_tiles ∧
    (VirtualCube.empty ℕ ℕ).get_tile "ndvi" (1, 2, 3) = none :=
  ⟨by decide, claim_C9_get_missing_returns_none (VirtualCube.empty ℕ ℕ) "ndvi" (1, 2, 3)
    (by decide)⟩

/-- C10: `add_tile` is last-write-wins — adding twice under the same name and
coords with different payloads leaves the second payload as the result of
`get_tile`, and the number of stored keys does not increase on the second
call. -/
theorem claim_C10_last_write_wins {Img Meta : Type} :
    ∀ (c : VirtualCube Img Meta) (name : String) (coords : Int × Int × Int)
      (image₁ : Img) (meta₁ : Meta) (image₂ : Img) (meta₂ : Meta),
    (image₁, meta₁) ≠ (image₂, meta₂) →
    (((c.add_tile name image₁ meta₁ coords).add_tile name image₂ meta₂ coords).get_tile
        name coords = some (image₂, meta₂)) ∧
    ((((c.add_tile name image₁ meta₁ coords).add_tile name image₂ meta₂ coords).list_tiles).length
        = ((c.add_tile name image₁ meta₁ coords).list_tiles).length) := by
  intro c name coords image₁ meta₁ image₂ meta₂ _
  constructor
  · simp only [VirtualCube.get_tile, VirtualCube.add_tile]
    exact dictGet_dictInsert_self _ _ _
  · simp only [VirtualCube.list_tiles, VirtualCube.add_tile, dictKeys, List.length_map]
    exact length_dictInsert_dictInsert _ _ _ _

/-- Witness for C10 at a concrete cube and two distinct payloads. -/
theorem claim_C10_witness :
    ((((VirtualCube.empty ℕ ℕ).add_tile "ndvi" 0 0 (1, 2, 3)).add_tile
        "ndvi" 5 7 (1, 2, 3)).get_tile "ndvi" (1, 2, 3) = some (5, 7)) ∧
    (((((VirtualCube.empty ℕ ℕ).add_tile "ndvi" 0 0 (1, 2, 3)).add_tile
        "ndvi" 5 7 (1, 2, 3)).list_tiles).length
      = (((VirtualCube.empty ℕ ℕ).add_tile "ndvi" 0 0 (1, 2, 3)).list_tiles).length) :=
  claim_C10_last_write_wins (VirtualCube.empty ℕ ℕ) "ndvi" (1, 2, 3) 0 0 5 7 (by decide)

/-- C7: the store never evicts — `add_tile` under one key leaves the entry
under every other key unchanged, and every key stored before an `add_tile`
is still stored after it. The remaining operations of the class
(`list_tiles`, `get_tile`, `save_all`) perform no assignment to
`self.tiles` and are embedded as pure functions of the cube, so they cannot
remove an entry. -/
theorem claim_C7_no_eviction {Img Meta : Type} :
    ∀ (c : VirtualCube Img Meta) (name : String) (image : Img) (metadata : Meta)
      (coords : Int × Int × Int) (name' : String) (coords' : Int × Int × Int),
    ((coords', name') ≠ (coords, name) →
      (c.add_tile name image metadata coords).get_tile name' coords' =
        c.get_tile name' coords') ∧
    (∀ k, k ∈ c.list_tiles → k ∈ (c.add_tile name image metadata coords).list_tiles) := by
  intro c name image metadata coords name' coords'
  constructor
  · intro h
    simp only [VirtualCube.get_tile, VirtualCube.add_tile]
    apply dictGet_dictInsert_ne
    intro hk
    apply h
    obtain ⟨x', y', z'⟩ := coords'
    obtain ⟨x, y, z⟩ := coords
    simp_all
  · intro k hk
    exact mem_dictKeys_dictInsert _ _ _ _ hk

/-- Witness for C7 at a concrete cube, a fresh key and a previously stored
key. -/
theorem claim_C7_witness :
    ((((VirtualCube.empty ℕ ℕ).add_tile "a" 0 0 (0, 0, 0)).add_tile
        "b" 1 1 (1, 2, 3)).get_tile "a" (0, 0, 0)
      = ((VirtualCube.empty ℕ ℕ).add_tile "a" 0 0 (0, 0, 0)).get_tile "a" (0, 0, 0)) ∧
    (((0, 0, 0, "a") : TileKey) ∈
      (((VirtualCube.empty ℕ ℕ).add_tile "a" 0 0 (0, 0, 0)).add_tile
        "b" 1 1 (1, 2, 3)).list_tiles) :=
  ⟨(claim_C7_no_eviction ((VirtualCube.empty ℕ ℕ).add_tile "a" 0 0 (0, 0, 0))
      "b" 1 1 (1, 2, 3) "a" (0, 0, 0)).1 (by decide),
   (claim_C7_no_eviction ((VirtualCube.empty ℕ ℕ).add_tile "a" 0 0 (0, 0, 0))
      "b" 1 1 (1, 2, 3) "a" (0, 0, 0)).2 (0, 0, 0, "a") (by decide)⟩

/-- C2 fails as stated: on NIR = [1], Red = [0] the returned value is
1/(1 + 1e-6), not the glossary NDVI (1 − 0)/(1 + 0) = 1, because the code
adds 1e-6 to the denominator before dividing. -/
theorem claim_C2_counterexample :
    OtherTrials.compute_ndvi [1] [0] ≠ [((1 : ℚ) - 0) / (1 + 0)] ∧
    compute_index [1] [0] default_numerator default_denominator ≠
      [((1 : ℚ) - 0) / (1 + 0)] := by
  constructor <;>
    norm_num [OtherTrials.compute_ndvi, OtherTrials.ndvi_divisor, compute_index,
      index_divisor, default_numerator, default_denominator, epsilon]

/-- C2 (amended): `compute_ndvi` and `compute_index` with its default
numerator `"band2-band1"` and denominator `"band2+band1"` agree elementwise,
and each element is (NIR − Red)/(NIR + Red + 1e-6) — the glossary NDVI with
the constant 1e-6 added to the denominator. -/
theorem claim_C2_index_formula :
    ∀ (nir_array red_array : List ℚ) (nir red : ℚ),
    OtherTrials.compute_ndvi nir_array red_array =
      compute_index nir_array red_array default_numerator default_denominator ∧
    OtherTrials.compute_ndvi (nir :: nir_array) (red :: red_array) =
      ((nir - red) / (nir + red + 1e-6)) :: OtherTrials.compute_ndvi nir_array red_array := by
  intro nir_array red_array nir red
  exact ⟨rfl, rfl⟩

/-- C3 fails as stated: the value divided by is the evaluated denominator
plus 1e-6, which is exactly zero when the evaluated denominator is −1e-6 —
here at NIR = −1e-6, Red = 0 for both `compute_ndvi` and `compute_index`
with the default denominator. -/
theorem claim_C3_counterexample :
    OtherTrials.ndvi_divisor (-(1e-6)) 0 = 0 ∧
    index_divisor default_denominator 0 (-(1e-6)) = 0 := by
  constructor <;>
    norm_num [OtherTrials.ndvi_divisor, index_divisor, default_denominator, epsilon]

/-- C3 (amended): the value divided by is the evaluated denominator plus
1e-6; it is nonzero whenever the evaluated denominator is not −1e-6, and in
particular, for nonnegative band values, the default-denominator divisor of
`compute_index` and the divisor of `compute_ndvi` are strictly positive, so
the division-by-zero case is not reached there. -/
theorem claim_C3_divisor_nonzero :
    ∀ (denominator : ℚ → ℚ → ℚ) (b1 b2 nir red : ℚ),
    (denominator b1 b2 ≠ -(1e-6) → index_divisor denominator b1 b2 ≠ 0) ∧
    (0 ≤ b1 → 0 ≤ b2 → 0 < index_divisor default_denominator b1 b2) ∧
    (0 ≤ nir → 0 ≤ red → 0 < OtherTrials.ndvi_divisor nir red) := by
  intro denominator b1 b2 nir red
  have hε : (0 : ℚ) < 1e-6 := by norm_num
  refine ⟨?_, ?_, ?_⟩
  · intro h hc
    apply h
    simp only [index_divisor, epsilon] at hc
    linarith
  · intro h1 h2
    simp only [index_divisor, default_denominator, epsilon]
    linarith
  · intro h1 h2
    simp only [OtherTrials.ndvi_divisor, epsilon]
    linarith

/-- Witness for C3 (amended) at concrete band values. -/
theorem claim_C3_witness :
    (index_divisor default_denominator 0 1 ≠ 0) ∧
    (0 < index_divisor default_denominator 0 1) ∧
    (0 < OtherTrials.ndvi_divisor 1 0) :=
  ⟨(claim_C3_divisor_nonzero default_denominator 0 1 1 0).1 (by norm_num [default_denominator]),
   (claim_C3_divisor_nonzero default_denominator 0 1 1 0).2.1 (by norm_num) (by norm_num),
   (claim_C3_divisor_nonzero default_denominator 0 1 1 0).2.2 (by norm_num) (by norm_num)⟩

/-- C5 fails as stated for the `Other_Trials/A4_utils.py` copy of
`save_tile_image`, one of the claim's two cited implementations: at
x = 1, y = 2, z = 3 it writes `out/tile_1_2_3.png`, not the claimed
`out/tile_3_1_2.png` with components in the order z, x, y. -/
theorem claim_C5_counterexample :
    OtherTrials.save_tile_image (0 : ℕ) 1 2 3 "out" ≠ ("out/tile_3_1_2.png", (0 : ℕ)) := by
  decide

/-- C5 (amended): `save_tile_image` in `a_4_utils.py` writes the image to
`<folder>/tile_<z>_<x>_<y>.png` (components in the order z, x, y), while the
`Other_Trials/A4_utils.py` copy writes it to `<folder>/tile_<x>_<y>_<z>.png`
(components in the order x, y, z). -/
theorem claim_C5_filename_orders {Img : Type} :
    ∀ (image : Img) (x y z : Int) (output_folder : String),
    save_tile_image image x y z output_folder =
      (output_folder ++ "/tile_" ++ toString z ++ "_" ++ toString x ++ "_" ++
        toString y ++ ".png", image) ∧
    OtherTrials.save_tile_image image x y z output_folder =
      (output_folder ++ "/tile_" ++ toString x ++ "_" ++ toString y ++ "_" ++
        toString z ++ ".png", image) := by
  intro image x y z output_folder
  exact ⟨rfl, rfl⟩

/-- C6: `save_all` performs exactly one write per stored entry, and the
entry stored under key `(x, y, z, name)` is written to
`<folder>/<name>_<z>_<x>_<y>.png`. -/
theorem claim_C6_save_all_files {Img Meta : Type} :
    ∀ (c : VirtualCube Img Meta) (output_folder : String),
    ((c.save_all output_folder).length = c.tiles.length) ∧
    (∀ (x y z : Int) (name : String) (image : Img) (metadata : Meta),
      ((x, y, z, name), (image, metadata)) ∈ c.tiles →
      (save_all_filename name x y z output_folder, image) ∈ c.save_all output_folder) := by
  intro c output_folder
  constructor
  · simp [VirtualCube.save_all]
  · intro x y z name image metadata h
    simp only [VirtualCube.save_all]
    exact List.mem_map.mpr ⟨((x, y, z, name), (image, metadata)), h, rfl⟩

/-- Witness for C6 at a one-entry cube. -/
theorem claim_C6_witness :
    ((((VirtualCube.empty ℕ ℕ).add_tile "ndvi" 9 8 (1, 2, 3)).save_all "out").length
      = ((VirtualCube.empty ℕ ℕ).add_tile "ndvi" 9 8 (1, 2, 3)).tiles.length) ∧
    ((save_all_filename "ndvi" 1 2 3 "out", 9) ∈
      ((VirtualCube.empty ℕ ℕ).add_tile "ndvi" 9 8 (1, 2, 3)).save_all "out") :=
  ⟨(claim_C6_save_all_files ((VirtualCube.empty ℕ ℕ).add_tile "ndvi" 9 8 (1, 2, 3)) "out").1,
   (claim_C6_save_all_files ((VirtualCube.empty ℕ ℕ).add_tile "ndvi" 9 8 (1, 2, 3)) "out").2
     1 2 3 "ndvi" 9 8 (by decide)⟩

/-- C4 fails as stated for `fetch_ndvi_tile`: its return value is only the
pair (image, metadata); the tile coordinates are not part of the result. Two
calls whose projected tile triples differ (zoom 1 vs zoom 2, under a
projection and an engine that such calls can legitimately share) return
identical outputs, so the coordinate triple is not returned nor recoverable
from the output. -/
theorem claim_C4_counterexample :
    (OtherTrials.fetch_ndvi_tile (fun _ _ zoom => (0, 0, zoom))
        (fun _ _ _ _ _ _ _ _ _ _ => ((0 : ℕ), (0 : ℕ))) id 0 0 1 "s" "e" 30
      = OtherTrials.fetch_ndvi_tile (fun _ _ zoom => (0, 0, zoom))
        (fun _ _ _ _ _ _ _ _ _ _ => ((0 : ℕ), (0 : ℕ))) id 0 0 2 "s" "e" 30) ∧
    ((fun (_ _ : ℚ) (zoom : ℕ) => ((0 : Int), (0 : Int), zoom)) 0 0 1 ≠
      (fun (_ _ : ℚ) (zoom : ℕ) => ((0 : Int), (0 : Int), zoom)) 0 0 2) :=
  ⟨rfl, by decide⟩

/-- C4 (amended): `fetch_index_tile` returns the decoded image, the metadata
feature, and the tile triple (x, y, z) that `mercantile.tile(lon, lat, zoom)`
produced (the slippy-map projection itself lives in the external mercantile
library, here a parameter), with the engine called at exactly that triple;
`fetch_ndvi_tile` calls the engine at that triple with its hardcoded NDVI
arguments but returns only the image and the metadata, without the tile
coordinates. -/
theorem claim_C4_fetch_outputs {Bytes Feature Img : Type} :
    ∀ (mercantile_tile : ℚ → ℚ → ℕ → Int × Int × ℕ)
      (engine : Int → Int → ℕ → String → String → Int → String → String → String → String →
        Bytes × Feature)
      (image_open : Bytes → Img) (lat lon : ℚ) (zoom : ℕ)
      (start_date end_date : String) (cloud_cover : Int)
      (band1 band2 formula colormap_str : String),
    fetch_index_tile mercantile_tile engine image_open lat lon zoom
        start_date end_date cloud_cover band1 band2 formula colormap_str =
      (image_open (engine (mercantile_tile lon lat zoom).1 (mercantile_tile lon lat zoom).2.1
          (mercantile_tile lon lat zoom).2.2 start_date end_date cloud_cover
          band1 band2 formula colormap_str).1,
        (engine (mercantile_tile lon lat zoom).1 (mercantile_tile lon lat zoom).2.1
          (mercantile_tile lon lat zoom).2.2 start_date end_date cloud_cover
          band1 band2 formula colormap_str).2,
        mercantile_tile lon lat zoom) ∧
    OtherTrials.fetch_ndvi_tile mercantile_tile engine image_open lat lon zoom
        start_date end_date cloud_cover =
      (image_open (engine (mercantile_tile lon lat zoom).1 (mercantile_tile lon lat zoom).2.1
          (mercantile_tile lon lat zoom).2.2 start_date end_date cloud_cover
          "red" "nir" "(band2-band1)/(band2+band1)" "RdYlGn").1,
        (engine (mercantile_tile lon lat zoom).1 (mercantile_tile lon lat zoom).2.1
          (mercantile_tile lon lat zoom).2.2 start_date end_date cloud_cover
          "red" "nir" "(band2-band1)/(band2+band1)" "RdYlGn").2) := by
  intro mercantile_tile engine image_open lat lon zoom start_date end_date cloud_cover
    band1 band2 formula colormap_str
  exact ⟨rfl, rfl⟩

/-- C8: no operation catches or transforms errors — when a sub-operation
(the `eval` of the numerator or denominator expression, the array
arithmetic, the file write, or the external engine call or image decode)
fails, the calling operation (`compute_index`, `compute_ndvi`,
`save_tile_image`, `save_all`, `fetch_index_tile`, `fetch_ndvi_tile`)
returns exactly that failure. Each conjunct propagates the error of one
failure point unchanged through the straight-line composition; for
`save_all` the failing write may sit at any position of the write list,
after any number of successful writes. -/
theorem claim_C8_error_propagation {E A Bytes Feature Img Meta : Type} :
    ∀ (e : E),
    (∀ (eval_expr : String → Except E A) (add_epsilon : A → A)
       (divide : A → A → Except E A) (numerator denominator : String),
      eval_expr numerator = Except.error e →
      compute_index_run eval_expr add_epsilon divide numerator denominator =
        Except.error e) ∧
    (∀ (eval_expr : String → Except E A) (add_epsilon : A → A)
       (divide : A → A → Except E A) (numerator denominator : String) (num : A),
      eval_expr numerator = Except.ok num →
      eval_expr denominator = Except.error e →
      compute_index_run eval_expr add_epsilon divide numerator denominator =
        Except.error e) ∧
    (∀ (eval_expr : String → Except E A) (add_epsilon : A → A)
       (divide : A → A → Except E A) (numerator denominator : String) (num den : A),
      eval_expr numerator = Except.ok num →
      eval_expr denominator = Except.ok den →
      divide num (add_epsilon den) = Except.error e →
      compute_index_run eval_expr add_epsilon divide numerator denominator =
        Except.error e) ∧
    (∀ (subtract add : A → A → Except E A) (add_epsilon : A → A)
       (divide : A → A → Except E A) (nir red : A),
      subtract nir red = Except.error e →
      compute_ndvi_run subtract add add_epsilon divide nir red = Except.error e) ∧
    (∀ (subtract add : A → A → Except E A) (add_epsilon : A → A)
       (divide : A → A → Except E A) (nir red num : A),
      subtract nir red = Except.ok num →
      add nir red = Except.error e →
      compute_ndvi_run subtract add add_epsilon divide nir red = Except.error e) ∧
    (∀ (subtract add : A → A → Except E A) (add_epsilon : A → A)
       (divide : A → A → Except E A) (nir red num den : A),
      subtract nir red = Except.ok num →
      add nir red = Except.ok den →
      divide num (add_epsilon den) = Except.error e →
      compute_ndvi_run subtract add add_epsilon divide nir red = Except.error e) ∧
    (∀ (write : String → Img → Except E Unit) (image : Img) (x y z : Int)
       (output_folder : String),
      write (tile_filename x y z output_folder) image = Except.error e →
      save_tile_image_run write image x y z output_folder = Except.error e) ∧
    (∀ (mercantile_tile : ℚ → ℚ → ℕ → Int × Int × ℕ)
       (engine : Int → Int → ℕ → Except E (Bytes × Feature))
       (image_open : Bytes → Except E Img) (lat lon : ℚ) (zoom : ℕ),
      engine (mercantile_tile lon lat zoom).1 (mercantile_tile lon lat zoom).2.1
          (mercantile_tile lon lat zoom).2.2 = Except.error e →
      fetch_index_tile_run mercantile_tile engine image_open lat lon zoom =
        Except.error e) ∧
    (∀ (mercantile_tile : ℚ → ℚ → ℕ → Int × Int × ℕ)
       (engine : Int → Int → ℕ → Except E (Bytes × Feature))
       (image_open : Bytes → Except E Img) (lat lon : ℚ) (zoom : ℕ)
       (bytes : Bytes) (feature : Feature),
      engine (mercantile_tile lon lat zoom).1 (mercantile_tile lon lat zoom).2.1
          (mercantile_tile lon lat zoom).2.2 = Except.ok (bytes, feature) →
      image_open bytes = Except.error e →
      fetch_index_tile_run mercantile_tile engine image_open lat lon zoom =
        Except.error e) ∧
    (∀ (mercantile_tile : ℚ → ℚ → ℕ → Int × Int × ℕ)
       (engine : Int → Int → ℕ → Except E (Bytes × Feature))
       (image_open : Bytes → Except E Img) (lat lon : ℚ) (zoom : ℕ),
      engine (mercantile_tile lon lat zoom).1 (mercantile_tile lon lat zoom).2.1
          (mercantile_tile lon lat zoom).2.2 = Except.error e →
      fetch_ndvi_tile_run mercantile_tile engine image_open lat lon zoom =
        Except.error e) ∧
    (∀ (mercantile_tile : ℚ → ℚ → ℕ → Int × Int × ℕ)
       (engine : Int → Int → ℕ → Except E (Bytes × Feature))
       (image_open : Bytes → Except E Img) (lat lon : ℚ) (zoom : ℕ)
       (bytes : Bytes) (feature : Feature),
      engine (mercantile_tile lon lat zoom).1 (mercantile_tile lon lat zoom).2.1
          (mercantile_tile lon lat zoom).2.2 = Except.ok (bytes, feature) →
      image_open bytes = Except.error e →
      fetch_ndvi_tile_run mercantile_tile engine image_open lat lon zoom =
        Except.error e) ∧
    (∀ (write : String → Img → Except E Unit) (c : VirtualCube Img Meta)
       (output_folder : String) (done rest : List (String × Img)) (p : String × Img),
      c.save_all output_folder = done ++ p :: rest →
      (∀ q ∈ done, write q.1 q.2 = Except.ok ()) →
      write p.1 p.2 = Except.error e →
      save_all_run write c output_folder = Except.error e) := by
  intro e
  refine ⟨?_, ?_, ?_, ?_, ?_, ?_, ?_, ?_, ?_, ?_, ?_, ?_⟩
  · intro eval_expr add_epsilon divide numerator denominator h
    simp only [compute_index_run]
    rw [h]
    rfl
  · intro eval_expr add_epsilon divide numerator denominator num h1 h2
    simp only [compute_index_run]
    rw [h1, h2]
    rfl
  · intro eval_expr add_epsilon divide numerator denominator num den h1 h2 h3
    simp only [compute_index_run]
    rw [h1, h2]
    simpa using h3
  · intro subtract add add_epsilon divide nir red h
    simp only [compute_ndvi_run]
    rw [h]
    rfl
  · intro subtract add add_epsilon divide nir red num h1 h2
    simp only [compute_ndvi_run]
    rw [h1, h2]
    rfl
  · intro subtract add add_epsilon divide nir red num den h1 h2 h3
    simp only [compute_ndvi_run]
    rw [h1, h2]
    simpa using h3
  · intro write image x y z output_folder h
    exact h
  · intro mercantile_tile engine image_open lat lon zoom h
    simp only [fetch_index_tile_run]
    rw [h]
    rfl
  · intro mercantile_tile engine image_open lat lon zoom bytes feature h1 h2
    simp only [fetch_index_tile_run]
    rw [h1]
    show image_open bytes >>=
      (fun img => pure (img, feature, mercantile_tile lon lat zoom)) = Except.error e
    rw [h2]
    rfl
  · intro mercantile_tile engine image_open lat lon zoom h
    simp only [fetch_ndvi_tile_run]
    rw [h]
    rfl
  · intro mercantile_tile engine image_open lat lon zoom bytes feature h1 h2
    simp only [fetch_ndvi_tile_run]
    rw [h1]
    show image_open bytes >>= (fun img => pure (img, feature)) = Except.error e
    rw [h2]
    rfl
  · intro write c output_folder done rest p h1 hok hp
    simp only [save_all_run, h1]
    exact write_each_error write e done rest p hok hp

/-- Witness for C8 with every external operation instantiated concretely:
a failing `eval` of the numerator or of the denominator, a failing divide,
a failing subtraction, addition or division in `compute_ndvi`, a failing
write, a failing engine call or image decode in either fetch function, and
a `save_all` whose second write fails after a successful first write — each
error surfaces unchanged. -/
theorem claim_C8_witness :
    (@compute_index_run ℕ ℕ (fun _ => Except.error 7) id (fun a _ => Except.ok a)
        "band2-band1" "band2+band1" = Except.error 7) ∧
    (@compute_index_run ℕ ℕ (fun s => if s = "" then Except.ok 0 else Except.error 7)
        id (fun a _ => Except.ok a) "" "band2+band1" = Except.error 7) ∧
    (@compute_index_run ℕ ℕ (fun _ => Except.ok 0) id (fun _ _ => Except.error 7)
        "band2-band1" "band2+band1" = Except.error 7) ∧
    (@compute_ndvi_run ℕ ℕ (fun _ _ => Except.error 7) (fun a _ => Except.ok a) id
        (fun a _ => Except.ok a) 0 0 = Except.error 7) ∧
    (@compute_ndvi_run ℕ ℕ (fun a _ => Except.ok a) (fun _ _ => Except.error 7) id
        (fun a _ => Except.ok a) 0 0 = Except.error 7) ∧
    (@compute_ndvi_run ℕ ℕ (fun a _ => Except.ok a) (fun a _ => Except.ok a) id
        (fun _ _ => Except.error 7) 0 0 = Except.error 7) ∧
    (save_tile_image_run (fun _ _ => Except.error 7) (0 : ℕ) 1 2 3 "out" =
      Except.error (7 : ℕ)) ∧
    (@fetch_index_tile_run ℕ ℕ ℕ ℕ (fun _ _ zoom => (0, 0, zoom))
        (fun _ _ _ => Except.error 7) (fun b => Except.ok b) 0 0 1 =
      Except.error 7) ∧
    (@fetch_index_tile_run ℕ ℕ ℕ ℕ (fun _ _ zoom => (0, 0, zoom))
        (fun _ _ _ => Except.ok (0, 0)) (fun _ => Except.error 7) 0 0 1 =
      Except.error 7) ∧
    (@fetch_ndvi_tile_run ℕ ℕ ℕ ℕ (fun _ _ zoom => (0, 0, zoom))
        (fun _ _ _ => Except.error 7) (fun b => Except.ok b) 0 0 1 =
      Except.error 7) ∧
    (@fetch_ndvi_tile_run ℕ ℕ ℕ ℕ (fun _ _ zoom => (0, 0, zoom))
        (fun _ _ _ => Except.ok (0, 0)) (fun _ => Except.error 7) 0 0 1 =
      Except.error 7) ∧
    (save_all_run (fun _ n => if n = 0 then Except.ok () else Except.error 7)
        (((VirtualCube.empty ℕ ℕ).add_tile "a" 0 0 (1, 2, 3)).add_tile
          "b" 1 1 (4, 5, 6)) "out" = Except.error (7 : ℕ)) := by
  obtain ⟨h1, h2, h3, h4, h5, h6, h7, h8, h9, h10, h11, h12⟩ :=
    @claim_C8_error_propagation ℕ ℕ ℕ ℕ ℕ ℕ 7
  refine ⟨?_, ?_, ?_, ?_, ?_, ?_, ?_, ?_, ?_, ?_, ?_, ?_⟩
  · exact h1 (fun _ => Except.error 7) id (fun a _ => Except.ok a)
      "band2-band1" "band2+band1" rfl
  · exact h2 (fun s => if s = "" then Except.ok 0 else Except.error 7) id
      (fun a _ => Except.ok a) "" "band2+band1" 0 rfl rfl
  · exact h3 (fun _ => Except.ok 0) id (fun _ _ => Except.error 7)
      "band2-band1" "band2+band1" 0 0 rfl rfl rfl
  · exact h4 (fun _ _ => Except.error 7) (fun a _ => Except.ok a) id
      (fun a _ => Except.ok a) 0 0 rfl
  · exact h5 (fun a _ => Except.ok a) (fun _ _ => Except.error 7) id
      (fun a _ => Except.ok a) 0 0 0 rfl rfl
  · exact h6 (fun a _ => Except.ok a) (fun a _ => Except.ok a) id
      (fun _ _ => Except.error 7) 0 0 0 0 rfl rfl rfl
  · exact h7 (fun _ _ => Except.error 7) (0 : ℕ) 1 2 3 "out" rfl
  · exact h8 (fun _ _ zoom => (0, 0, zoom)) (fun _ _ _ => Except.error 7)
      (fun b => Except.ok b) 0 0 1 rfl
  · exact h9 (fun _ _ zoom => (0, 0, zoom)) (fun _ _ _ => Except.ok (0, 0))
      (fun _ => Except.error 7) 0 0 1 0 0 rfl rfl
  · exact h10 (fun _ _ zoom => (0, 0, zoom)) (fun _ _ _ => Except.error 7)
      (fun b => Except.ok b) 0 0 1 rfl
  · exact h11 (fun _ _ zoom => (0, 0, zoom)) (fun _ _ _ => Except.ok (0, 0))
      (fun _ => Except.error 7) 0 0 1 0 0 rfl rfl
  · exact h12 (fun _ n => if n = 0 then Except.ok () else Except.error 7)
      (((VirtualCube.empty ℕ ℕ).add_tile "a" 0 0 (1, 2, 3)).add_tile
        "b" 1 1 (4, 5, 6)) "out"
      [(save_all_filename "a" 1 2 3 "out", 0)] []
      (save_all_filename "b" 4 5 6 "out", 1)
      (by decide)
      (by
        intro q hq
        rw [List.mem_singleton] at hq
        subst hq
        rfl)
      rfl

end A4Utils
